import Mathlib

/-!
License retrieval (`pkg/client/connector/auth/license.go`).

A shallow embedding of `getLicenseJWT` and `loginExecutor.GetLicense`.

* Go strings are Lean `String`s, the Go `int` status code is an `Int`.
* A Go `(string, error)` result is a pair `String × Option Err`; `none` is the nil error.
* The Go standard library (`net/http`, `mime`, `io/ioutil`, `strconv` behind `%q`) and the
  token source are not part of the package: they are the fields of `Runtime`, `Response`,
  `Body` and `TokenSource`, and every theorem quantifies over them.
* Calls with an effect outside the package are recorded, in program order, in a list of
  `Event`s returned next to the result.  A `defer` is the event appended after the events of
  the guarded region.
-/

namespace Auth

/-! ## Errors -/

/-- A Go error value: its message, and for an error built with `%w` the error it wraps. -/
inductive Err where
  | plain (msg : String)
  | wrapping (msg : String) (cause : Err)
  deriving DecidableEq, Repr

/-- The method `Error()` of a Go error. -/
def Err.Error : Err → String
  | .plain msg => msg
  | .wrapping msg _ => msg

/-- The method `Unwrap()` of a Go error. -/
def Err.Unwrap : Err → Option Err
  | .plain _ => none
  | .wrapping _ cause => some cause

/-- The function `errors.Is`: `target` is met somewhere along the `Unwrap` chain of `e`. -/
def Err.Is : Err → Err → Bool
  | .plain msg, target => decide (Err.plain msg = target)
  | .wrapping msg cause, target =>
      decide (Err.wrapping msg cause = target) || Err.Is cause target

/-- A Go `(string, error)` result. -/
abbrev Ret := String × Option Err

/-- The text `sub` occurs in `s`. -/
def occursIn (sub s : String) : Prop := sub.data <:+: s.data

instance (sub s : String) : Decidable (occursIn sub s) :=
  inferInstanceAs (Decidable (sub.data <:+: s.data))

/-- The verb `%v` applied to a Go `int`: decimal digits, with a leading minus sign. -/
def fmtInt (n : Int) : String := toString n

/-! ## The world outside the package -/

/-- A `context.Context`, as far as the caller can tell: cancelled or not. -/
structure Context where
  cancelled : Bool
  deriving DecidableEq, Repr

/-- The type `client.Env`; only `LoginDomain` is read here. -/
structure Env where
  LoginDomain : String
  deriving DecidableEq, Repr

/-- The type `http.Header`: canonical key, list of values. -/
abbrev Header := List (String × List String)

/-- The method `Header.Get`: first value under the key, the empty string when there is none.
The keys used here (`Content-Type`, `Authorization`) are already canonical. -/
def Header.Get (h : Header) (key : String) : String :=
  match h.lookup key with
  | some (v :: _) => v
  | _ => ""

/-- The method `Header.Set`: the key is bound to the single value, replacing earlier ones. -/
def Header.Set (h : Header) (key value : String) : Header :=
  (key, [value]) :: h.filter (fun kv => kv.1 != key)

/-- The type `http.Request`, as far as it is built here. -/
structure Request where
  ctx : Context
  Method : String
  URL : String
  Header : Header
  deriving DecidableEq, Repr

/-- The response body stream: what `ioutil.ReadAll` yields on it. -/
structure Body where
  ReadAll : Except Err String

/-- The type `http.Response`, as far as it is read here. -/
structure Response where
  StatusCode : Int
  Header : Header
  Body : Body

/-- The standard-library functions `getLicenseJWT` calls. -/
structure Runtime where
  /-- The function `http.NewRequestWithContext` with a nil body. -/
  NewRequestWithContext : Context → String → String → Except Err Request
  /-- The method `http.DefaultClient.Do`. -/
  Do : Request → Except Err Response
  /-- The function `mime.ParseMediaType`; the parameter map is dropped, as in the source. -/
  ParseMediaType : String → Except Err String
  /-- The verb `%q` of `fmt` on a string. -/
  Quote : String → String

/-- The type `oauth2.Token`; only `AccessToken` is read here. -/
structure Token where
  AccessToken : String
  deriving DecidableEq, Repr

/-- The interface `oauth2.TokenSource`: the outcome of its method `Token()`. -/
structure TokenSource where
  Token : Except Err Token

/-- The fields of `loginExecutor` that `GetLicense` reads; `loginMu` shows up as the events
`lock` and `unlock`, and a nil `tokenSource` is `none`. -/
structure loginExecutor where
  tokenSource : Option TokenSource
  env : Env

/-- Calls that reach outside the package. -/
inductive Event where
  | lock
  | unlock
  | token
  | newRequest (method url : String)
  | send (req : Request)
  | readBody
  | closeBody
  deriving DecidableEq, Repr

/-! ## The two functions -/

/-- The request URL, `fmt.Sprintf("https://%s/api/licenses/%s/formats/jwt", ...)`. -/
def licenseURL (env : Env) (licenseID : String) : String :=
  "https://" ++ env.LoginDomain ++ "/api/licenses/" ++ licenseID ++ "/formats/jwt"

/-- Lines 38 to 65 of `getLicenseJWT`: what runs between `defer resp.Body.Close()` and the
return. -/
def getLicenseJWT.handle (rt : Runtime) (resp : Response) (licenseID : String) :
    Ret × List Event :=
  match rt.ParseMediaType (resp.Header.Get "Content-Type") with
  | .error err =>
      (("", some (.wrapping ("http " ++ fmtInt resp.StatusCode ++ ": " ++ err.Error) err)), [])
  | .ok mimetype =>
      if mimetype ≠ "text/plain" then
        (("", some (.plain ("http " ++ fmtInt resp.StatusCode
            ++ ": response body is not text/plain: " ++ rt.Quote mimetype))), [])
      else
        match resp.Body.ReadAll with
        | .error err => (("", some err), [.readBody])
        | .ok bodyBytes =>
            if resp.StatusCode = 404 then
              (("", some (.plain "license JWT not found")), [.readBody])
            else if resp.StatusCode = 500 then
              (("", some (.plain ("Error getting license jwt for " ++ licenseID ++ ": "
                  ++ bodyBytes))), [.readBody])
            else
              ((bodyBytes, none), [.readBody])

/-- Lines 24 to 35 of `getLicenseJWT` without the events: the request is built, given its
`Authorization` header and sent. -/
def roundTrip (rt : Runtime) (ctx : Context) (env : Env) (accessToken licenseID : String) :
    Except Err Response :=
  match rt.NewRequestWithContext ctx "GET" (licenseURL env licenseID) with
  | .error err => .error err
  | .ok req =>
      rt.Do { req with Header := Header.Set req.Header "Authorization" ("Bearer " ++ accessToken) }

/-- The function `getLicenseJWT`. -/
def getLicenseJWT (rt : Runtime) (ctx : Context) (env : Env) (accessToken licenseID : String) :
    Ret × List Event :=
  match rt.NewRequestWithContext ctx "GET" (licenseURL env licenseID) with
  | .error err => (("", some err), [.newRequest "GET" (licenseURL env licenseID)])
  | .ok req =>
      let req : Request :=
        { req with Header := Header.Set req.Header "Authorization" ("Bearer " ++ accessToken) }
      match rt.Do req with
      | .error err => (("", some err), [.newRequest "GET" (licenseURL env licenseID), .send req])
      | .ok resp =>
          let r := getLicenseJWT.handle rt resp licenseID
          (r.1, [.newRequest "GET" (licenseURL env licenseID), .send req] ++ r.2 ++ [.closeBody])

/-- The body of `GetLicense`, between `defer l.loginMu.Unlock()` and the return. The package
variable `ErrNotLoggedIn` is declared in another file and is a parameter here. -/
def loginExecutor.GetLicense.locked (rt : Runtime) (ErrNotLoggedIn : Err) (l : loginExecutor)
    (ctx : Context) (id : String) : Ret × List Event :=
  match l.tokenSource with
  | none => (("", some (.wrapping ("GetLicense: " ++ ErrNotLoggedIn.Error) ErrNotLoggedIn)), [])
  | some tokenSource =>
      match tokenSource.Token with
      | .error err => (("", some err), [.token])
      | .ok tokenInfo =>
          let r := getLicenseJWT rt ctx l.env tokenInfo.AccessToken id
          match r.1.2 with
          | some err => (("", some err), .token :: r.2)
          | none =>
              if r.1.1 = "" then
                (("", some (.plain ("No licenses found for " ++ id))), .token :: r.2)
              else
                ((r.1.1, none), .token :: r.2)

/-- The method `loginExecutor.GetLicense`. -/
def loginExecutor.GetLicense (rt : Runtime) (ErrNotLoggedIn : Err) (l : loginExecutor)
    (ctx : Context) (id : String) : Ret × List Event :=
  let r := loginExecutor.GetLicense.locked rt ErrNotLoggedIn l ctx id
  (r.1, [.lock] ++ r.2 ++ [.unlock])

/-! ## Test doubles -/

/-- A stand-in for `mime.ParseMediaType` on the header values the examples use. -/
def mockParseMediaType (v : String) : Except Err String :=
  if v = "text/plain" then .ok "text/plain"
  else if v = "text/plain; charset=utf-8" then .ok "text/plain"
  else if v = "application/json" then .ok "application/json"
  else if v = "" then .error (.plain "mime: no media type")
  else .error (.plain "mime: expected slash after first token")

/-- A stand-in for `%q` on text without quotes, backslashes or unprintable characters. -/
def mockQuote (s : String) : String :=
  String.singleton (Char.ofNat 34) ++ s ++ String.singleton (Char.ofNat 34)

/-- A mocked transport: every request is accepted and answered by `resp`. -/
def mockRuntime (resp : Response) : Runtime where
  NewRequestWithContext := fun ctx method url => .ok ⟨ctx, method, url, []⟩
  Do := fun _ => .ok resp
  ParseMediaType := mockParseMediaType
  Quote := mockQuote

/-- A mocked response with one `Content-Type` value and a body that reads completely. -/
def mockResponse (status : Int) (contentType body : String) : Response where
  StatusCode := status
  Header := [("Content-Type", [contentType])]
  Body := ⟨.ok body⟩

/-- A mocked response whose body stream breaks off with `err` while it is read. -/
def mockBrokenResponse (status : Int) (contentType : String) (err : Err) : Response where
  StatusCode := status
  Header := [("Content-Type", [contentType])]
  Body := ⟨.error err⟩

/-- A mocked transport that accepts every request and fails to send it. -/
def mockUnreachable (err : Err) : Runtime where
  NewRequestWithContext := fun ctx method url => .ok ⟨ctx, method, url, []⟩
  Do := fun _ => .error err
  ParseMediaType := mockParseMediaType
  Quote := mockQuote

/-- A mocked transport that cannot build the request. -/
def mockNoRequest (err : Err) (resp : Response) : Runtime where
  NewRequestWithContext := fun _ _ _ => .error err
  Do := fun _ => .ok resp
  ParseMediaType := mockParseMediaType
  Quote := mockQuote

/-- A background context. -/
def bg : Context := ⟨false⟩

/-- The environment of the examples. -/
def mockEnv : Env := ⟨"auth.example.com"⟩

/-- The sentinel `ErrNotLoggedIn` of the examples. -/
def mockErrNotLoggedIn : Err := .plain "not logged in"

/-- A logged-in session whose token source yields the token `tok`. -/
def loggedIn (tok : String) : loginExecutor := ⟨some ⟨.ok ⟨tok⟩⟩, mockEnv⟩

end Auth

/-! ## Auxiliary facts -/

namespace Auth

theorem occursIn_append_right (sub a b : String) (h : occursIn sub a) : occursIn sub (a ++ b) := by
  unfold occursIn at *
  rw [String.data_append]
  exact h.trans (List.infix_append' [] a.data b.data)

theorem occursIn_append_left (sub a b : String) (h : occursIn sub b) : occursIn sub (a ++ b) := by
  unfold occursIn at *
  rw [String.data_append]
  exact h.trans (List.suffix_append a.data b.data).isInfix

theorem occursIn_self (s : String) : occursIn s s := List.infix_refl _

theorem Err.Is_self (e : Err) : Err.Is e e = true := by
  cases e <;> simp [Err.Is]

/-- Once the round trip has produced `resp`, the result is the one of the guarded region and
the events are those of the region, the two calls before it and the deferred close after. -/
theorem getLicenseJWT_of_roundTrip_ok (rt : Runtime) (ctx : Context) (env : Env)
    (accessToken licenseID : String) (resp : Response)
    (h : roundTrip rt ctx env accessToken licenseID = .ok resp) :
    (getLicenseJWT rt ctx env accessToken licenseID).1
        = (getLicenseJWT.handle rt resp licenseID).1 ∧
    ∃ req, (getLicenseJWT rt ctx env accessToken licenseID).2
        = [.newRequest "GET" (licenseURL env licenseID), .send req]
            ++ (getLicenseJWT.handle rt resp licenseID).2 ++ [.closeBody] := by
  unfold roundTrip at h
  unfold getLicenseJWT
  cases hreq : rt.NewRequestWithContext ctx "GET" (licenseURL env licenseID) with
  | error err => rw [hreq] at h; cases h
  | ok req =>
      rw [hreq] at h
      simp only at h ⊢
      rw [h]
      exact ⟨rfl, _, rfl⟩

/-- When the round trip fails, its error is returned and no body is touched. -/
theorem getLicenseJWT_of_roundTrip_error (rt : Runtime) (ctx : Context) (env : Env)
    (accessToken licenseID : String) (e : Err)
    (h : roundTrip rt ctx env accessToken licenseID = .error e) :
    (getLicenseJWT rt ctx env accessToken licenseID).1 = ("", some e) ∧
    (getLicenseJWT rt ctx env accessToken licenseID).2.count .closeBody = 0 := by
  unfold roundTrip at h
  unfold getLicenseJWT
  cases hreq : rt.NewRequestWithContext ctx "GET" (licenseURL env licenseID) with
  | error err =>
      rw [hreq] at h
      simp only at h ⊢
      cases h
      exact ⟨rfl, by simp⟩
  | ok req =>
      rw [hreq] at h
      simp only at h ⊢
      rw [h]
      exact ⟨rfl, by simp⟩

/-- The guarded region never closes the body itself: its events are at most one read. -/
theorem handle_events (rt : Runtime) (resp : Response) (licenseID : String) :
    (getLicenseJWT.handle rt resp licenseID).2 = [] ∨
    (getLicenseJWT.handle rt resp licenseID).2 = [.readBody] := by
  unfold getLicenseJWT.handle
  repeat' split
  all_goals simp

/-- The guarded region on a `text/plain` response whose body reads as `b`. -/
theorem handle_text_plain (rt : Runtime) (resp : Response) (licenseID b : String)
    (hct : rt.ParseMediaType (resp.Header.Get "Content-Type") = .ok "text/plain")
    (hbody : resp.Body.ReadAll = .ok b) :
    (getLicenseJWT.handle rt resp licenseID).1 =
      if resp.StatusCode = 404 then ("", some (.plain "license JWT not found"))
      else if resp.StatusCode = 500 then
        ("", some (.plain ("Error getting license jwt for " ++ licenseID ++ ": " ++ b)))
      else (b, none) := by
  unfold getLicenseJWT.handle
  rw [hct]
  simp only [ne_eq, not_true_eq_false, if_false, hbody]
  repeat' split
  all_goals rfl

/-- On a session with a token source that yields `tok`, `GetLicense` is the fetcher followed
by the empty-license check. -/
theorem GetLicense_of_token (rt : Runtime) (E : Err) (l : loginExecutor) (ctx : Context)
    (id : String) (ts : TokenSource) (tok : Token)
    (hts : l.tokenSource = some ts) (htok : ts.Token = .ok tok) :
    (l.GetLicense rt E ctx id).1 =
      match (getLicenseJWT rt ctx l.env tok.AccessToken id).1.2 with
      | some err => ("", some err)
      | none =>
          if (getLicenseJWT rt ctx l.env tok.AccessToken id).1.1 = "" then
            ("", some (.plain ("No licenses found for " ++ id)))
          else ((getLicenseJWT rt ctx l.env tok.AccessToken id).1.1, none) := by
  unfold loginExecutor.GetLicense loginExecutor.GetLicense.locked
  rw [hts]
  simp only [htok]
  cases (getLicenseJWT rt ctx l.env tok.AccessToken id).1.2 with
  | some err => rfl
  | none =>
      simp only
      split <;> rfl

/-- On a session without token source, `GetLicense` only takes and releases the mutex. -/
theorem GetLicense_of_no_token_source (rt : Runtime) (E : Err) (l : loginExecutor)
    (ctx : Context) (id : String) (h : l.tokenSource = none) :
    l.GetLicense rt E ctx id
      = (("", some (.wrapping ("GetLicense: " ++ E.Error) E)), [.lock, .unlock]) := by
  unfold loginExecutor.GetLicense loginExecutor.GetLicense.locked
  rw [h]
  rfl

/-- On a session whose token lookup fails, `GetLicense` stops after the lookup. -/
theorem GetLicense_of_token_failure (rt : Runtime) (E : Err) (l : loginExecutor)
    (ctx : Context) (id : String) (ts : TokenSource) (e : Err)
    (hts : l.tokenSource = some ts) (he : ts.Token = .error e) :
    l.GetLicense rt E ctx id = (("", some e), [.lock, .token, .unlock]) := by
  unfold loginExecutor.GetLicense loginExecutor.GetLicense.locked
  rw [hts]
  simp only [he]
  rfl

end Auth

/-! ## The fetcher `getLicenseJWT` -/

namespace Auth

/-- C1: whatever the domain, access token, license identifier and body text `b` (the empty
text included), when the round trip returns a response with status 200, a `Content-Type`
that parses to `text/plain` and a body that reads completely as `b`, `getLicenseJWT` returns
`b` unchanged with a nil error. -/
theorem getLicenseJWT_status_200_returns_body (rt : Runtime) (ctx : Context) (env : Env)
    (accessToken licenseID b : String) (resp : Response)
    (hresp : roundTrip rt ctx env accessToken licenseID = .ok resp)
    (hstatus : resp.StatusCode = 200)
    (hct : rt.ParseMediaType (resp.Header.Get "Content-Type") = .ok "text/plain")
    (hbody : resp.Body.ReadAll = .ok b) :
    (getLicenseJWT rt ctx env accessToken licenseID).1 = (b, none) := by
  rw [(getLicenseJWT_of_roundTrip_ok rt ctx env accessToken licenseID resp hresp).1,
    handle_text_plain rt resp licenseID b hct hbody, hstatus]
  rfl

/-- Witness of C1 on the mocked 200 response with body `abc.def.ghi`, and on the empty body. -/
theorem getLicenseJWT_status_200_returns_body_witness :
    (getLicenseJWT (mockRuntime (mockResponse 200 "text/plain" "abc.def.ghi")) bg mockEnv
        "tok" "lic-1").1 = ("abc.def.ghi", none) ∧
    (getLicenseJWT (mockRuntime (mockResponse 200 "text/plain" "")) bg mockEnv
        "tok" "lic-1").1 = ("", none) :=
  ⟨getLicenseJWT_status_200_returns_body
      (mockRuntime (mockResponse 200 "text/plain" "abc.def.ghi")) bg mockEnv "tok" "lic-1"
      "abc.def.ghi" (mockResponse 200 "text/plain" "abc.def.ghi") rfl rfl rfl rfl,
   getLicenseJWT_status_200_returns_body
      (mockRuntime (mockResponse 200 "text/plain" "")) bg mockEnv "tok" "lic-1"
      "" (mockResponse 200 "text/plain" "") rfl rfl rfl rfl⟩

/-- C3: whatever the status code and the body, when the `Content-Type` value of the response
(the empty string for an absent header) does not parse to `text/plain`, be it a parse error
or another media type, `getLicenseJWT` returns the empty string with an error whose message
starts with `http`, the status code and a colon, so the message includes the status code; a
parse error is wrapped, another media type is quoted in the message; and `ReadAll` is not
among the calls made, so no body reaches the result. -/
theorem getLicenseJWT_content_type_rejected (rt : Runtime) (ctx : Context) (env : Env)
    (accessToken licenseID : String) (resp : Response)
    (hresp : roundTrip rt ctx env accessToken licenseID = .ok resp)
    (hct : rt.ParseMediaType (resp.Header.Get "Content-Type") ≠ .ok "text/plain") :
    ∃ e rest, (getLicenseJWT rt ctx env accessToken licenseID).1 = ("", some e) ∧
      e.Error = "http " ++ fmtInt resp.StatusCode ++ ": " ++ rest ∧
      occursIn (fmtInt resp.StatusCode) e.Error ∧
      (∀ err, rt.ParseMediaType (resp.Header.Get "Content-Type") = .error err →
        e = .wrapping ("http " ++ fmtInt resp.StatusCode ++ ": " ++ err.Error) err) ∧
      (∀ m, rt.ParseMediaType (resp.Header.Get "Content-Type") = .ok m →
        e = .plain ("http " ++ fmtInt resp.StatusCode
              ++ ": response body is not text/plain: " ++ rt.Quote m)) ∧
      Event.readBody ∉ (getLicenseJWT rt ctx env accessToken licenseID).2 := by
  obtain ⟨h1, req, h2⟩ := getLicenseJWT_of_roundTrip_ok rt ctx env accessToken licenseID resp hresp
  have hocc : ∀ rest : String,
      occursIn (fmtInt resp.StatusCode) ("http " ++ fmtInt resp.StatusCode ++ ": " ++ rest) := by
    intro rest
    apply occursIn_append_right
    apply occursIn_append_right
    apply occursIn_append_left
    exact occursIn_self _
  have hs : (": response body is not text/plain: " : String)
      = ": " ++ "response body is not text/plain: " := by decide
  rw [h1, h2]
  cases hp : rt.ParseMediaType (resp.Header.Get "Content-Type") with
  | error err =>
      have hh : getLicenseJWT.handle rt resp licenseID =
          (("", some (.wrapping ("http " ++ fmtInt resp.StatusCode ++ ": " ++ err.Error) err)),
            []) := by
        unfold getLicenseJWT.handle
        rw [hp]
      rw [hh]
      refine ⟨_, err.Error, rfl, rfl, hocc _, ?_, ?_, by simp⟩
      · intro err2 h
        cases h
        rfl
      · intro m h
        cases h
  | ok mimetype =>
      have hne : mimetype ≠ "text/plain" := by
        intro h
        apply hct
        rw [hp, h]
      have hh : getLicenseJWT.handle rt resp licenseID =
          (("", some (.plain ("http " ++ fmtInt resp.StatusCode
            ++ ": response body is not text/plain: " ++ rt.Quote mimetype))), []) := by
        unfold getLicenseJWT.handle
        rw [hp]
        simp only [hne, ne_eq, not_false_eq_true, if_true]
      rw [hh]
      refine ⟨_, "response body is not text/plain: " ++ rt.Quote mimetype, rfl, ?_, ?_, ?_, ?_,
        by simp⟩
      · simp only [Err.Error]
        rw [hs]
        simp only [String.append_assoc]
      · simp only [Err.Error]
        rw [hs]
        have := hocc ("response body is not text/plain: " ++ rt.Quote mimetype)
        simpa only [String.append_assoc] using this
      · intro err h
        cases h
      · intro m h
        cases h
        rfl

/-- Witness of C3 on the mocked 200 response with `Content-Type: application/json`. -/
theorem getLicenseJWT_content_type_rejected_witness :
    ∃ e rest, (getLicenseJWT (mockRuntime (mockResponse 200 "application/json" "abc.def.ghi"))
        bg mockEnv "tok" "lic-1").1 = ("", some e) ∧
      e.Error = "http " ++ fmtInt (mockResponse 200 "application/json" "abc.def.ghi").StatusCode
        ++ ": " ++ rest ∧
      occursIn (fmtInt (mockResponse 200 "application/json" "abc.def.ghi").StatusCode) e.Error ∧
      (∀ err, (mockRuntime (mockResponse 200 "application/json" "abc.def.ghi")).ParseMediaType
          ((mockResponse 200 "application/json" "abc.def.ghi").Header.Get "Content-Type")
            = .error err →
        e = .wrapping ("http "
          ++ fmtInt (mockResponse 200 "application/json" "abc.def.ghi").StatusCode
          ++ ": " ++ err.Error) err) ∧
      (∀ m, (mockRuntime (mockResponse 200 "application/json" "abc.def.ghi")).ParseMediaType
          ((mockResponse 200 "application/json" "abc.def.ghi").Header.Get "Content-Type")
            = .ok m →
        e = .plain ("http "
          ++ fmtInt (mockResponse 200 "application/json" "abc.def.ghi").StatusCode
          ++ ": response body is not text/plain: "
          ++ (mockRuntime (mockResponse 200 "application/json" "abc.def.ghi")).Quote m)) ∧
      Event.readBody ∉ (getLicenseJWT
        (mockRuntime (mockResponse 200 "application/json" "abc.def.ghi"))
        bg mockEnv "tok" "lic-1").2 :=
  getLicenseJWT_content_type_rejected
    (mockRuntime (mockResponse 200 "application/json" "abc.def.ghi")) bg mockEnv "tok" "lic-1"
    (mockResponse 200 "application/json" "abc.def.ghi") rfl
    (fun h => absurd (Except.ok.inj h) (by decide))

end Auth

namespace Auth

/-- Counterexample to C4 as stated: a 404 response with `Content-Type: application/json`
yields the content-type error, not the not-found error, and a 404 `text/plain` response
whose body stream breaks off yields the read error. -/
theorem getLicenseJWT_status_404_other_errors :
    (getLicenseJWT (mockRuntime (mockResponse 404 "application/json" "gone")) bg mockEnv
        "tok" "lic-1").1
      = ("", some (.plain ("http 404: response body is not text/plain: "
            ++ mockQuote "application/json"))) ∧
    (getLicenseJWT (mockRuntime (mockResponse 404 "application/json" "gone")) bg mockEnv
        "tok" "lic-1").1 ≠ ("", some (.plain "license JWT not found")) ∧
    (getLicenseJWT (mockRuntime (mockBrokenResponse 404 "text/plain" (.plain "unexpected EOF")))
        bg mockEnv "tok" "lic-1").1 = ("", some (.plain "unexpected EOF")) ∧
    (getLicenseJWT (mockRuntime (mockBrokenResponse 404 "text/plain" (.plain "unexpected EOF")))
        bg mockEnv "tok" "lic-1").1 ≠ ("", some (.plain "license JWT not found")) := by
  decide

/-- C4, amended: for every response with status 404 whose `Content-Type` parses to
`text/plain` and whose body is read without error, whatever the body content,
`getLicenseJWT` returns the empty string with the error `license JWT not found`. -/
theorem getLicenseJWT_status_404_not_found (rt : Runtime) (ctx : Context) (env : Env)
    (accessToken licenseID b : String) (resp : Response)
    (hresp : roundTrip rt ctx env accessToken licenseID = .ok resp)
    (hstatus : resp.StatusCode = 404)
    (hct : rt.ParseMediaType (resp.Header.Get "Content-Type") = .ok "text/plain")
    (hbody : resp.Body.ReadAll = .ok b) :
    (getLicenseJWT rt ctx env accessToken licenseID).1
      = ("", some (.plain "license JWT not found")) := by
  rw [(getLicenseJWT_of_roundTrip_ok rt ctx env accessToken licenseID resp hresp).1,
    handle_text_plain rt resp licenseID b hct hbody, hstatus]
  rfl

/-- Witness of the amended C4 on a mocked 404 `text/plain` response. -/
theorem getLicenseJWT_status_404_not_found_witness :
    (getLicenseJWT (mockRuntime (mockResponse 404 "text/plain" "gone")) bg mockEnv
        "tok" "lic-1").1 = ("", some (.plain "license JWT not found")) :=
  getLicenseJWT_status_404_not_found (mockRuntime (mockResponse 404 "text/plain" "gone"))
    bg mockEnv "tok" "lic-1" "gone" (mockResponse 404 "text/plain" "gone") rfl rfl rfl rfl

/-- C5: for every license identifier `licenseID` and body text `b`, when the response has
status 500, a `text/plain` `Content-Type` and a body that reads as `b`, `getLicenseJWT`
returns the empty string with the error whose message is
`Error getting license jwt for `, `licenseID`, `: `, `b`; both `licenseID` and `b` occur in
that message. -/
theorem getLicenseJWT_status_500_server_error (rt : Runtime) (ctx : Context) (env : Env)
    (accessToken licenseID b : String) (resp : Response)
    (hresp : roundTrip rt ctx env accessToken licenseID = .ok resp)
    (hstatus : resp.StatusCode = 500)
    (hct : rt.ParseMediaType (resp.Header.Get "Content-Type") = .ok "text/plain")
    (hbody : resp.Body.ReadAll = .ok b) :
    (getLicenseJWT rt ctx env accessToken licenseID).1
      = ("", some (.plain ("Error getting license jwt for " ++ licenseID ++ ": " ++ b))) ∧
    occursIn licenseID
      (Err.plain ("Error getting license jwt for " ++ licenseID ++ ": " ++ b)).Error ∧
    occursIn b
      (Err.plain ("Error getting license jwt for " ++ licenseID ++ ": " ++ b)).Error := by
  refine ⟨?_, ?_, ?_⟩
  · rw [(getLicenseJWT_of_roundTrip_ok rt ctx env accessToken licenseID resp hresp).1,
      handle_text_plain rt resp licenseID b hct hbody, hstatus]
    rfl
  · simp only [Err.Error]
    apply occursIn_append_right
    apply occursIn_append_right
    apply occursIn_append_left
    exact occursIn_self _
  · simp only [Err.Error]
    apply occursIn_append_left
    exact occursIn_self _

/-- Witness of C5 on the mocked 500 response with body `boom` for the identifier `lic-1`. -/
theorem getLicenseJWT_status_500_server_error_witness :
    (getLicenseJWT (mockRuntime (mockResponse 500 "text/plain" "boom")) bg mockEnv
        "tok" "lic-1").1
      = ("", some (.plain ("Error getting license jwt for " ++ "lic-1" ++ ": " ++ "boom"))) ∧
    occursIn "lic-1"
      (Err.plain ("Error getting license jwt for " ++ "lic-1" ++ ": " ++ "boom")).Error ∧
    occursIn "boom"
      (Err.plain ("Error getting license jwt for " ++ "lic-1" ++ ": " ++ "boom")).Error :=
  getLicenseJWT_status_500_server_error (mockRuntime (mockResponse 500 "text/plain" "boom"))
    bg mockEnv "tok" "lic-1" "boom" (mockResponse 500 "text/plain" "boom") rfl rfl rfl rfl

/-- C8: for every status code other than 200, 404 and 500, when the response has a
`text/plain` `Content-Type` and a body that reads as `b`, `getLicenseJWT` returns `b` with a
nil error; and `GetLicense` on a session whose token source yields the access token returns
a non-empty such `b` as the license, with a nil error. -/
theorem getLicenseJWT_other_status_returns_body (rt : Runtime) (ctx : Context) (env : Env)
    (accessToken licenseID b : String) (resp : Response)
    (hresp : roundTrip rt ctx env accessToken licenseID = .ok resp)
    (_h200 : resp.StatusCode ≠ 200) (h404 : resp.StatusCode ≠ 404)
    (h500 : resp.StatusCode ≠ 500)
    (hct : rt.ParseMediaType (resp.Header.Get "Content-Type") = .ok "text/plain")
    (hbody : resp.Body.ReadAll = .ok b) :
    (getLicenseJWT rt ctx env accessToken licenseID).1 = (b, none) ∧
    ∀ (E : Err) (l : loginExecutor) (ts : TokenSource),
      l.tokenSource = some ts → ts.Token = .ok ⟨accessToken⟩ → l.env = env → b ≠ "" →
      (l.GetLicense rt E ctx licenseID).1 = (b, none) := by
  have hjwt : (getLicenseJWT rt ctx env accessToken licenseID).1 = (b, none) := by
    rw [(getLicenseJWT_of_roundTrip_ok rt ctx env accessToken licenseID resp hresp).1,
      handle_text_plain rt resp licenseID b hct hbody, if_neg h404, if_neg h500]
  refine ⟨hjwt, ?_⟩
  intro E l ts hts htok henv hb
  rw [GetLicense_of_token rt E l ctx licenseID ts ⟨accessToken⟩ hts htok, henv]
  simp only [hjwt, hb, if_false]

/-- Witness of C8 on a mocked 403 response with body `forbidden`. -/
theorem getLicenseJWT_other_status_returns_body_witness :
    (getLicenseJWT (mockRuntime (mockResponse 403 "text/plain" "forbidden")) bg mockEnv
        "tok" "lic-1").1 = ("forbidden", none) ∧
    ((loggedIn "tok").GetLicense (mockRuntime (mockResponse 403 "text/plain" "forbidden"))
        mockErrNotLoggedIn bg "lic-1").1 = ("forbidden", none) :=
  have h := getLicenseJWT_other_status_returns_body
    (mockRuntime (mockResponse 403 "text/plain" "forbidden")) bg mockEnv "tok" "lic-1"
    "forbidden" (mockResponse 403 "text/plain" "forbidden") rfl (by decide) (by decide)
    (by decide) rfl rfl
  ⟨h.1, h.2 mockErrNotLoggedIn (loggedIn "tok") ⟨.ok ⟨"tok"⟩⟩ rfl rfl rfl (by decide)⟩

end Auth

namespace Auth

/-- C9: in every call of `getLicenseJWT` whose round trip returns a response, whichever exit
is taken afterwards, the body is closed exactly once and the close is the last call made
before the function returns; when request construction or the round trip fails, the error
is returned and the body is never closed. -/
theorem getLicenseJWT_closes_body_once (rt : Runtime) (ctx : Context) (env : Env)
    (accessToken licenseID : String) :
    (∀ resp, roundTrip rt ctx env accessToken licenseID = .ok resp →
      (getLicenseJWT rt ctx env accessToken licenseID).2.count .closeBody = 1 ∧
      (getLicenseJWT rt ctx env accessToken licenseID).2.getLast? = some .closeBody) ∧
    (∀ e, roundTrip rt ctx env accessToken licenseID = .error e →
      (getLicenseJWT rt ctx env accessToken licenseID).1 = ("", some e) ∧
      (getLicenseJWT rt ctx env accessToken licenseID).2.count .closeBody = 0) := by
  constructor
  · intro resp hresp
    obtain ⟨_, req, h2⟩ :=
      getLicenseJWT_of_roundTrip_ok rt ctx env accessToken licenseID resp hresp
    rw [h2]
    rcases handle_events rt resp licenseID with h | h <;> rw [h] <;> simp
  · intro e he
    exact getLicenseJWT_of_roundTrip_error rt ctx env accessToken licenseID e he

/-- Witness of C9: one close on a success, on a rejected content type, on a broken body, on
a 404 and on a 500; none when the transport fails or the request cannot be built. -/
theorem getLicenseJWT_closes_body_once_witness :
    (getLicenseJWT (mockRuntime (mockResponse 200 "text/plain" "abc.def.ghi")) bg mockEnv
        "tok" "lic-1").2.count .closeBody = 1 ∧
    (getLicenseJWT (mockRuntime (mockResponse 200 "application/json" "x")) bg mockEnv
        "tok" "lic-1").2.count .closeBody = 1 ∧
    (getLicenseJWT (mockRuntime (mockResponse 200 "" "x")) bg mockEnv
        "tok" "lic-1").2.count .closeBody = 1 ∧
    (getLicenseJWT (mockRuntime (mockBrokenResponse 200 "text/plain" (.plain "unexpected EOF")))
        bg mockEnv "tok" "lic-1").2.count .closeBody = 1 ∧
    (getLicenseJWT (mockRuntime (mockResponse 404 "text/plain" "gone")) bg mockEnv
        "tok" "lic-1").2.count .closeBody = 1 ∧
    (getLicenseJWT (mockRuntime (mockResponse 500 "text/plain" "boom")) bg mockEnv
        "tok" "lic-1").2.count .closeBody = 1 ∧
    (getLicenseJWT (mockUnreachable (.plain "connection refused")) bg mockEnv
        "tok" "lic-1").2.count .closeBody = 0 ∧
    (getLicenseJWT (mockNoRequest (.plain "invalid URL") (mockResponse 200 "text/plain" "x"))
        bg mockEnv "tok" "lic-1").2.count .closeBody = 0 :=
  ⟨((getLicenseJWT_closes_body_once (mockRuntime (mockResponse 200 "text/plain" "abc.def.ghi"))
      bg mockEnv "tok" "lic-1").1 _ rfl).1,
   ((getLicenseJWT_closes_body_once (mockRuntime (mockResponse 200 "application/json" "x"))
      bg mockEnv "tok" "lic-1").1 _ rfl).1,
   ((getLicenseJWT_closes_body_once (mockRuntime (mockResponse 200 "" "x"))
      bg mockEnv "tok" "lic-1").1 _ rfl).1,
   ((getLicenseJWT_closes_body_once
      (mockRuntime (mockBrokenResponse 200 "text/plain" (.plain "unexpected EOF")))
      bg mockEnv "tok" "lic-1").1 _ rfl).1,
   ((getLicenseJWT_closes_body_once (mockRuntime (mockResponse 404 "text/plain" "gone"))
      bg mockEnv "tok" "lic-1").1 _ rfl).1,
   ((getLicenseJWT_closes_body_once (mockRuntime (mockResponse 500 "text/plain" "boom"))
      bg mockEnv "tok" "lic-1").1 _ rfl).1,
   ((getLicenseJWT_closes_body_once (mockUnreachable (.plain "connection refused"))
      bg mockEnv "tok" "lic-1").2 _ rfl).2,
   ((getLicenseJWT_closes_body_once
      (mockNoRequest (.plain "invalid URL") (mockResponse 200 "text/plain" "x"))
      bg mockEnv "tok" "lic-1").2 _ rfl).2⟩

/-- C10, the code at the failing inputs: after a body that was read without error, the
error of a 404 response is `license JWT not found` and the error of a 500 response for
`lic-1` with body `boom` is `Error getting license jwt for lic-1: boom`; the status code
occurs in neither message. -/
theorem getLicenseJWT_late_errors_omit_status :
    (getLicenseJWT (mockRuntime (mockResponse 404 "text/plain" "gone")) bg mockEnv
        "tok" "lic-1").1 = ("", some (.plain "license JWT not found")) ∧
    ¬ occursIn (fmtInt 404) (Err.plain "license JWT not found").Error ∧
    (getLicenseJWT (mockRuntime (mockResponse 500 "text/plain" "boom")) bg mockEnv
        "tok" "lic-1").1 = ("", some (.plain "Error getting license jwt for lic-1: boom")) ∧
    ¬ occursIn (fmtInt 500) (Err.plain "Error getting license jwt for lic-1: boom").Error := by
  decide

end Auth

/-! ## The accessor `GetLicense` -/

namespace Auth

/-- C6: whatever the license identifier and the runtime, on a session without token source
`GetLicense` returns the empty string with the error `GetLicense: ` followed by the message
of `ErrNotLoggedIn`, which wraps `ErrNotLoggedIn`; the only calls made are the lock and the
unlock of the mutex, so neither the token source nor the fetcher runs, and the outcome is
the same under every other runtime. -/
theorem GetLicense_not_logged_in (rt : Runtime) (E : Err) (l : loginExecutor) (ctx : Context)
    (id : String) (h : l.tokenSource = none) :
    l.GetLicense rt E ctx id
      = (("", some (.wrapping ("GetLicense: " ++ E.Error) E)), [.lock, .unlock]) ∧
    (Err.wrapping ("GetLicense: " ++ E.Error) E).Unwrap = some E ∧
    Err.Is (.wrapping ("GetLicense: " ++ E.Error) E) E = true ∧
    ∀ rt2 : Runtime, l.GetLicense rt2 E ctx id = l.GetLicense rt E ctx id := by
  have key : ∀ r : Runtime, l.GetLicense r E ctx id
      = (("", some (.wrapping ("GetLicense: " ++ E.Error) E)), [.lock, .unlock]) :=
    fun r => GetLicense_of_no_token_source r E l ctx id h
  refine ⟨key rt, rfl, ?_, ?_⟩
  · simp [Err.Is, Err.Is_self]
  · intro rt2
    rw [key rt2, key rt]

/-- Witness of C6 on a session without token source. -/
theorem GetLicense_not_logged_in_witness :
    loginExecutor.GetLicense (mockRuntime (mockResponse 200 "text/plain" "abc.def.ghi"))
        mockErrNotLoggedIn ⟨none, mockEnv⟩ bg "lic-1"
      = (("", some (.wrapping ("GetLicense: " ++ mockErrNotLoggedIn.Error) mockErrNotLoggedIn)),
          [.lock, .unlock]) :=
  (GetLicense_not_logged_in (mockRuntime (mockResponse 200 "text/plain" "abc.def.ghi"))
    mockErrNotLoggedIn ⟨none, mockEnv⟩ bg "lic-1" rfl).1

/-- C7: on a session whose token source is present and whose `Token()` fails with `e`,
`GetLicense` returns the empty string with exactly `e`; the calls made are the lock, the
token lookup and the unlock, so `getLicenseJWT` does not run and the outcome is the same
under every other runtime. -/
theorem GetLicense_token_error (rt : Runtime) (E : Err) (l : loginExecutor) (ctx : Context)
    (id : String) (ts : TokenSource) (e : Err)
    (hts : l.tokenSource = some ts) (he : ts.Token = .error e) :
    l.GetLicense rt E ctx id = (("", some e), [.lock, .token, .unlock]) ∧
    ∀ rt2 : Runtime, l.GetLicense rt2 E ctx id = l.GetLicense rt E ctx id := by
  have key : ∀ r : Runtime,
      l.GetLicense r E ctx id = (("", some e), [.lock, .token, .unlock]) :=
    fun r => GetLicense_of_token_failure r E l ctx id ts e hts he
  refine ⟨key rt, ?_⟩
  intro rt2
  rw [key rt2, key rt]

/-- Witness of C7 on a session whose token refresh fails. -/
theorem GetLicense_token_error_witness :
    loginExecutor.GetLicense (mockRuntime (mockResponse 200 "text/plain" "abc.def.ghi"))
        mockErrNotLoggedIn ⟨some ⟨.error (.plain "token expired")⟩, mockEnv⟩ bg "lic-1"
      = (("", some (.plain "token expired")), [.lock, .token, .unlock]) :=
  (GetLicense_token_error (mockRuntime (mockResponse 200 "text/plain" "abc.def.ghi"))
    mockErrNotLoggedIn ⟨some ⟨.error (.plain "token expired")⟩, mockEnv⟩ bg "lic-1"
    ⟨.error (.plain "token expired")⟩ (.plain "token expired") rfl rfl).1

/-- C2: whatever the session, the identifier and the runtime, a result of `GetLicense` with
a nil error carries a non-empty credential; and when the token source yields a token and
`getLicenseJWT` returns the empty string with a nil error, `GetLicense` returns the empty
string with the error `No licenses found for ` followed by the identifier, which therefore
occurs in the message. -/
theorem GetLicense_never_empty (rt : Runtime) (E : Err) (l : loginExecutor) (ctx : Context)
    (id : String) :
    ((l.GetLicense rt E ctx id).1.2 = none → (l.GetLicense rt E ctx id).1.1 ≠ "") ∧
    (∀ (ts : TokenSource) (tok : Token), l.tokenSource = some ts → ts.Token = .ok tok →
      (getLicenseJWT rt ctx l.env tok.AccessToken id).1 = ("", none) →
      (l.GetLicense rt E ctx id).1 = ("", some (.plain ("No licenses found for " ++ id))) ∧
      occursIn id (Err.plain ("No licenses found for " ++ id)).Error) := by
  constructor
  · cases hts : l.tokenSource with
    | none =>
        rw [GetLicense_of_no_token_source rt E l ctx id hts]
        intro h
        cases h
    | some ts =>
        cases htok : ts.Token with
        | error e =>
            rw [GetLicense_of_token_failure rt E l ctx id ts e hts htok]
            intro h
            cases h
        | ok tok =>
            rw [GetLicense_of_token rt E l ctx id ts tok hts htok]
            cases (getLicenseJWT rt ctx l.env tok.AccessToken id).1.2 with
            | some err =>
                intro h
                cases h
            | none =>
                simp only
                split
                · intro h
                  cases h
                · intro _
                  assumption
  · intro ts tok hts htok hjwt
    refine ⟨?_, ?_⟩
    · rw [GetLicense_of_token rt E l ctx id ts tok hts htok, hjwt]
      rfl
    · simp only [Err.Error]
      apply occursIn_append_left
      exact occursIn_self _

/-- Witness of C2: a mocked 200 response with body `abc.def.ghi` gives a non-empty
credential, a mocked 200 response with empty body gives the empty-license error. -/
theorem GetLicense_never_empty_witness :
    ((loggedIn "tok").GetLicense (mockRuntime (mockResponse 200 "text/plain" "abc.def.ghi"))
        mockErrNotLoggedIn bg "lic-1").1.1 ≠ "" ∧
    ((loggedIn "tok").GetLicense (mockRuntime (mockResponse 200 "text/plain" ""))
        mockErrNotLoggedIn bg "lic-1").1
      = ("", some (.plain ("No licenses found for " ++ "lic-1"))) :=
  ⟨(GetLicense_never_empty (mockRuntime (mockResponse 200 "text/plain" "abc.def.ghi"))
      mockErrNotLoggedIn (loggedIn "tok") bg "lic-1").1 rfl,
   ((GetLicense_never_empty (mockRuntime (mockResponse 200 "text/plain" ""))
      mockErrNotLoggedIn (loggedIn "tok") bg "lic-1").2 ⟨.ok ⟨"tok"⟩⟩ ⟨"tok"⟩ rfl rfl rfl).1⟩

end Auth
